import Mathlib

/-!
Verification of the pyauto-desktop detection core
(`src/pyauto_desktop/detection.py` and collaborators).

The embedding follows the source closely:

* `global_to_local` / `local_to_global` come from `pyauto_desktop/utils.py`,
  a file that is not part of the provided sources; they are modelled from the
  spec (§4.1 CoordinateTransform).
* `DetectionWorker.run_image_detection` is embedded as `runImageDetection`,
  `DetectionWorker.run_text_extraction` as `runTextExtraction`.  External
  primitives (`Session.locateAllOnScreen`, `get_monitors_safe`,
  `get_monitor_dpr`, `Session._prepare_capture`, the OCR call) are supplied
  by an `Env` record of oracle functions; a Python exception raised by a
  primitive is modelled as `Except.error`.
* Qt signal emissions are modelled as the list of emitted values, in order;
  the worker's `try/except` wrappers appear as the `.error` branches that
  turn a raised primitive error into the corresponding fallback emission.
-/

namespace PyautoDesktop

/-- Opaque handle for an image buffer (template, anchor or captured data). -/
abbrev Img := Nat

/-- A rectangle `(x, y, w, h)`, the 4-tuples used throughout `detection.py`. -/
structure Rect where
  x : Int
  y : Int
  w : Int
  h : Int
deriving DecidableEq, Repr

/-- Modelled from the spec: `global_to_local` lives in `pyauto_desktop/utils.py`,
which is absent from the provided sources (only its import at
`detection.py:8` and its call sites are).  Spec §4.1: subtract the origin
from `x`/`y`; width and height unchanged. -/
def global_to_local (r : Rect) (o : Int × Int) : Rect :=
  ⟨r.x - o.1, r.y - o.2, r.w, r.h⟩

/-- Modelled from the spec: `local_to_global` from `pyauto_desktop/utils.py`
(file absent from the provided sources).  Spec §4.1: add the origin to
`x`/`y`; width and height unchanged. -/
def local_to_global (r : Rect) (o : Int × Int) : Rect :=
  ⟨r.x + o.1, r.y + o.2, r.w, r.h⟩

/-- The `anchor_config` dict.  `margin_x`/`margin_y` are read with
`.get('margin_x', 0)` (`detection.py:204-205`), so they may be absent;
`offset_x`, `offset_y`, `w`, `h` are accessed by key and must be present. -/
structure AnchorConfig where
  offset_x : Int
  offset_y : Int
  w : Int
  h : Int
  margin_x : Option Int
  margin_y : Option Int
deriving DecidableEq, Repr

/-- The per-anchor loop body of `run_image_detection`
(`detection.py:207-217`): build the margin-shifted relative rect with
`global_to_local`, translate it to the anchor with `local_to_global`, and
expand width/height by twice the margins. -/
def deriveRegion (cfg : AnchorConfig) (ax ay : Int) : Rect :=
  let margin_x := cfg.margin_x.getD 0
  let margin_y := cfg.margin_y.getD 0
  let rel_rect_with_margin :=
    global_to_local ⟨cfg.offset_x, cfg.offset_y, 0, 0⟩ (margin_x, margin_y)
  let absRect := local_to_global rel_rect_with_margin (ax, ay)
  ⟨absRect.x, absRect.y, cfg.w + margin_x * 2, cfg.h + margin_y * 2⟩

/-- Python truthiness of an optional float: `None` and `0.0` are falsy. -/
def truthyQ (q : Option ℚ) : Bool :=
  match q with
  | none => false
  | some v => v ≠ 0

/-- The scale-factor computation of `run_image_detection`
(`detection.py:175-190`): `scale_x`/`scale_y` start at `1.0`; in `dpr` mode
they become `target_dpr / source_dpr` when both DPRs are truthy; in
`resolution` mode they become `target / source` per axis when
`source_resolution` is present with both components `> 0`. -/
def computeScale (scaling_type : String) (source_dpr target_dpr : Option ℚ)
    (source_resolution : Option (Int × Int)) (selected_screen : Rect) : ℚ × ℚ :=
  if scaling_type = "dpr" then
    if truthyQ source_dpr ∧ truthyQ target_dpr then
      let r := (target_dpr.getD 0) / (source_dpr.getD 0)
      (r, r)
    else (1, 1)
  else if scaling_type = "resolution" then
    match source_resolution with
    | some (sr_w, sr_h) =>
      if sr_w > 0 ∧ sr_h > 0 then
        ((selected_screen.w : ℚ) / (sr_w : ℚ), (selected_screen.h : ℚ) / (sr_h : ℚ))
      else (1, 1)
    | none => (1, 1)
  else (1, 1)

/-- Python `int(...)` on a rational: truncation toward zero. -/
def pyInt (q : ℚ) : Int :=
  if q < 0 then -((-q).floor) else q.floor

/-- The fine-tune offsets tuple `(top, bottom, left, right)`
(`detection.py:43,107`). -/
structure TextOffsets where
  top : Int
  bottom : Int
  left : Int
  right : Int
deriving DecidableEq, Repr

/-- The fine-tune adjustment of `run_text_extraction`
(`detection.py:106-114`): shift the origin left/up by `left`/`top` and grow
the extents by `left+right` / `top+bottom`. -/
def applyOffsets (final_region : Rect) (off : TextOffsets) : Rect :=
  ⟨final_region.x - off.left, final_region.y - off.top,
   final_region.w + off.left + off.right, final_region.h + off.top + off.bottom⟩

/-- The state a `pyauto_desktop.Session(...)` is constructed with
(`detection.py:53-57` and `161-165`). -/
structure SessionCfg where
  screen : Nat
  source_resolution : Option (Int × Int)
  source_dpr : Option ℚ
deriving DecidableEq, Repr

/-- One call to `session.locateAllOnScreen(...)`: the session state plus the
keyword arguments the worker passes. -/
structure LocateQuery where
  sess : SessionCfg
  image : Option Img
  region : Option Rect
  grayscale : Bool
  confidence : ℚ
  overlap_threshold : ℚ
  scaling_type : String
deriving DecidableEq, Repr

/-- The external primitives `detection.py` calls, as oracle functions.
`Except.error e` models the primitive raising a Python exception with
message `e`; the worker's `try/except` turns that into the fallback
emission.

* `monitors` — `pyauto_desktop.get_monitors_safe()`.
* `monitor_dpr` — `pyauto_desktop.get_monitor_dpr(screen_idx, monitors)`;
  `none`/`some 0` are falsy for the `if self.source_dpr and target_dpr` test.
* `locate` — `session.locateAllOnScreen(...)`.  Modelled from the spec:
  `locateAllOnScreen` lives in `pyauto_desktop/functions.py`, absent from
  the provided sources.  Spec §6: an ordered sequence of match `Rect`s.
  The source consumes it as a one-shot iterator (`detection.py:71-79` binds
  it as `anchors_iter` and materialises it with `list(...)`), and the spec's
  design note fixes "append each nested scan's matches exactly once" as the
  contract; `PyIter` below realises that one-shot consumption.
* `capture` — `session._prepare_capture(region)`'s first component;
  `.ok none` models `img_data is None or img_data.size == 0`.
* `ocr` — the outcome of the call
  `text_recognition.get_text_from_image(img_data, mode=.., use_det=..)`
  (`detection.py:139-143`).  Its inputs are exactly the arguments of that
  call site: the captured image, `ocr_mode` and `use_det`.  The callee
  (`text_recognition.py:103`) takes a `lang` parameter defaulting to
  `'en-US'`; the call site never forwards a language, so no language value
  reaches this oracle. -/
structure Env where
  monitors : List Rect
  monitor_dpr : Nat → Option ℚ
  locate : LocateQuery → Except String (List Rect)
  capture : SessionCfg → Rect → Except String (Option Img)
  ocr : Img → String → Bool → Except String (List String)

/-- A Python generator/iterator over match rectangles: holds the elements
not yet consumed.  Both a `for` loop and `list(...)` drain it, so a second
traversal yields nothing. -/
structure PyIter where
  remaining : List Rect
deriving DecidableEq, Repr

/-- Consume an iterator: return everything it still holds, and the
exhausted iterator. -/
def PyIter.drain (it : PyIter) : List Rect × PyIter :=
  (it.remaining, ⟨[]⟩)

/-- The constructor arguments of `DetectionWorker` that `run_image_detection`
reads (`detection.py:18-36`). -/
structure ImageRequest where
  template_img : Option Img
  screen_idx : Nat
  confidence : ℚ
  grayscale : Bool
  overlap_threshold : ℚ
  anchor_img : Option Img
  anchor_config : Option AnchorConfig
  search_region : Option Rect
  source_dpr : Option ℚ
  source_resolution : Option (Int × Int)
  scaling_type : String
deriving Repr

/-- The payload of one `result_signal.emit(rects, anchors, scanned, count)`. -/
abbrev DetectionResult := List Rect × List Rect × List Rect × Nat

/-- The `Session` built by `run_image_detection` (`detection.py:161-165`)
and `run_text_extraction` (`detection.py:53-57`). -/
def ImageRequest.sess (req : ImageRequest) : SessionCfg :=
  ⟨req.screen_idx, req.source_resolution, req.source_dpr⟩

/-- The anchor search call of `run_image_detection` (`detection.py:193-200`). -/
def anchorQuery (req : ImageRequest) (aimg : Img) : LocateQuery :=
  ⟨req.sess, some aimg, req.search_region, req.grayscale, req.confidence,
   req.overlap_threshold, req.scaling_type⟩

/-- The nested template search call of `run_image_detection`
(`detection.py:222-234`): the derived region converted into the selected
screen's local frame. -/
def nestedQuery (req : ImageRequest) (cfg : AnchorConfig) (selected_screen : Rect)
    (a : Rect) : LocateQuery :=
  ⟨req.sess, req.template_img,
   some (global_to_local (deriveRegion cfg a.x a.y) (selected_screen.x, selected_screen.y)),
   req.grayscale, req.confidence, req.overlap_threshold, req.scaling_type⟩

/-- The direct (anchorless) search call of `run_image_detection`
(`detection.py:250-257`). -/
def directQuery (req : ImageRequest) : LocateQuery :=
  ⟨req.sess, req.template_img, req.search_region, req.grayscale, req.confidence,
   req.overlap_threshold, req.scaling_type⟩

/-- The per-anchor `for` loop of `run_image_detection`
(`detection.py:207-237`), threading the mutable `final_rects` and
`scanned_regions` accumulators.  Degenerate derived regions hit `continue`;
a raise from the nested search propagates (to the worker's `except`).
Each nested result is consumed once by the `for rect in targets` append and
once more by `final_rects.extend(list(targets))` on the by-then exhausted
iterator. -/
def anchorLoop (env : Env) (req : ImageRequest) (cfg : AnchorConfig)
    (selected_screen : Rect) :
    List Rect → List Rect → List Rect → Except String (List Rect × List Rect)
  | [], final_rects, scanned_regions => .ok (final_rects, scanned_regions)
  | a :: rest, final_rects, scanned_regions =>
    let region := deriveRegion cfg a.x a.y
    if region.w ≤ 0 ∨ region.h ≤ 0 then
      anchorLoop env req cfg selected_screen rest final_rects scanned_regions
    else
      let scanned_regions := scanned_regions ++ [region]
      match env.locate (nestedQuery req cfg selected_screen a) with
      | .error e => .error e
      | .ok ms =>
        let targets : PyIter := ⟨ms⟩
        let (got, targets) := targets.drain
        let final_rects := final_rects ++ got
        let (got2, _targets) := targets.drain
        let final_rects := final_rects ++ got2
        anchorLoop env req cfg selected_screen rest final_rects scanned_regions

/-- `DetectionWorker.run_image_detection` (`detection.py:154-265`), as the
single `result_signal` emission it performs.  Every path emits exactly once:
an out-of-range screen index and the `except` handler both emit
`([], [], [], 0)`. -/
def runImageDetection (env : Env) (req : ImageRequest) : DetectionResult :=
  if h : req.screen_idx < env.monitors.length then
    let selected_screen := env.monitors.get ⟨req.screen_idx, h⟩
    let target_dpr := env.monitor_dpr req.screen_idx
    let scale := computeScale req.scaling_type req.source_dpr target_dpr
      req.source_resolution selected_screen
    match req.anchor_img, req.anchor_config with
    | some aimg, some cfg =>
      match env.locate (anchorQuery req aimg) with
      | .error _ => ([], [], [], 0)
      | .ok anchors_list =>
        match anchorLoop env req cfg selected_screen anchors_list [] [] with
        | .error _ => ([], [], [], 0)
        | .ok (final_rects, scanned_regions) =>
          (final_rects, anchors_list, scanned_regions, final_rects.length)
    | _, _ =>
      let scanned_regions :=
        match req.search_region with
        | some r =>
          [Rect.mk (pyInt ((r.x : ℚ) * scale.1)) (pyInt ((r.y : ℚ) * scale.2))
             (pyInt ((r.w : ℚ) * scale.1)) (pyInt ((r.h : ℚ) * scale.2))]
        | none => []
      match env.locate (directQuery req) with
      | .error _ => ([], [], [], 0)
      | .ok rects => (rects, [], scanned_regions, rects.length)
  else ([], [], [], 0)

/-- The constructor arguments of `DetectionWorker` that `run_text_extraction`
reads (`detection.py:18-43`).  `ocr_lang` is stored on the worker
(`detection.py:39`) like the rest. -/
structure TextRequest where
  screen_idx : Nat
  confidence : ℚ
  grayscale : Bool
  overlap_threshold : ℚ
  anchor_img : Option Img
  anchor_config : Option AnchorConfig
  search_region : Option Rect
  source_dpr : Option ℚ
  source_resolution : Option (Int × Int)
  scaling_type : String
  ocr_lang : String
  ocr_mode : String
  use_det : Bool
  text_rect : Option Rect
  text_offsets : Option TextOffsets
deriving Repr

/-- The payload of one `text_signal.emit(image, text)`; `image = none`
models the empty `QImage()` emitted on failures. -/
structure TextEmission where
  image : Option Img
  text : String
deriving DecidableEq, Repr

/-- The `Session` built by `run_text_extraction` (`detection.py:53-57`). -/
def TextRequest.sess (req : TextRequest) : SessionCfg :=
  ⟨req.screen_idx, req.source_resolution, req.source_dpr⟩

/-- The anchor search call of `run_text_extraction` (`detection.py:71-78`). -/
def textAnchorQuery (req : TextRequest) (aimg : Img) : LocateQuery :=
  ⟨req.sess, some aimg, req.search_region, req.grayscale, req.confidence,
   req.overlap_threshold, req.scaling_type⟩

/-- The OCR step of `run_text_extraction` (`detection.py:137-146`): join the
recognized lines with newlines, or turn a raised error into an
`"OCR Error: ..."` payload.  The call site passes the captured image,
`ocr_mode` and `use_det` — and no language. -/
def ocrText (env : Env) (req : TextRequest) (img : Img) : String :=
  match env.ocr img req.ocr_mode req.use_det with
  | .ok lines => String.intercalate "\n" lines
  | .error e => "OCR Error: " ++ e

/-- The tail of `run_text_extraction` from the `if not final_region` check
onward (`detection.py:100-148`): reject a missing region, unpack the
fine-tune offsets (a `None` tuple raises and is caught by the outer
`except`), capture the adjusted region, then emit preview plus OCR text. -/
def textTail (env : Env) (req : TextRequest) (final_region : Option Rect) :
    List TextEmission :=
  match final_region with
  | none => [⟨none, "No region defined"⟩]
  | some fr =>
    match req.text_offsets with
    | none => [⟨none, "Error: cannot unpack non-iterable NoneType object"⟩]
    | some off =>
      match env.capture req.sess (applyOffsets fr off) with
      | .error e => [⟨none, "Error: " ++ e⟩]
      | .ok none => [⟨none, "Capture Error"⟩]
      | .ok (some img_data) => [⟨some img_data, ocrText env req img_data⟩]

/-- `DetectionWorker.run_text_extraction` (`detection.py:51-152`), as the
list of `text_signal` emissions it performs, in order.  An out-of-range
screen index takes the bare `return` at `detection.py:63` — inside the
`try`, before any emission — so that path emits nothing; every other path
emits exactly once. -/
def runTextExtraction (env : Env) (req : TextRequest) : List TextEmission :=
  if req.screen_idx < env.monitors.length then
    match req.anchor_img, req.anchor_config, req.text_rect with
    | some aimg, some _cfg, some tr =>
      match env.locate (textAnchorQuery req aimg) with
      | .error e => [⟨none, "Error: " ++ e⟩]
      | .ok [] => [⟨none, "Anchor not found"⟩]
      | .ok (a :: _) =>
        textTail env req (some ⟨a.x + tr.x, a.y + tr.y, tr.w, tr.h⟩)
    | _, _, _ => textTail env req req.text_rect
  else []

/-! ## Helper lemmas -/

instance {ε α : Type} [DecidableEq ε] [DecidableEq α] : DecidableEq (Except ε α) := fun a b =>
  match a, b with
  | .error e, .error f =>
    if h : e = f then isTrue (by rw [h])
    else isFalse (by intro hx; injection hx with hx2; exact h hx2)
  | .error _, .ok _ => isFalse (by intro hx; injection hx)
  | .ok _, .error _ => isFalse (by intro hx; injection hx)
  | .ok v, .ok w =>
    if h : v = w then isTrue (by rw [h])
    else isFalse (by intro hx; injection hx with hx2; exact h hx2)

theorem textTail_length (env : Env) (req : TextRequest) (fr : Option Rect) :
    (textTail env req fr).length = 1 := by
  unfold textTail
  split
  · rfl
  · split
    · rfl
    · split <;> rfl

theorem deriveRegion_w (cfg : AnchorConfig) (ax ay : Int) :
    (deriveRegion cfg ax ay).w = cfg.w + (cfg.margin_x.getD 0) * 2 := rfl

theorem deriveRegion_h (cfg : AnchorConfig) (ax ay : Int) :
    (deriveRegion cfg ax ay).h = cfg.h + (cfg.margin_y.getD 0) * 2 := rfl

theorem count_flatMap {α : Type} [DecidableEq α] (f : Rect → List α) (r : α) :
    ∀ l : List Rect, (l.flatMap f).count r = (l.map fun a => (f a).count r).sum := by
  intro l
  induction l with
  | nil => simp
  | cons a t ih => simp [List.count_append, ih]

theorem anchorLoop_all_ok (env : Env) (req : ImageRequest) (cfg : AnchorConfig)
    (scr : Rect) (f : Rect → List Rect)
    (hw : 0 < cfg.w + (cfg.margin_x.getD 0) * 2)
    (hh : 0 < cfg.h + (cfg.margin_y.getD 0) * 2) :
    ∀ (anchors : List Rect),
      (∀ a ∈ anchors, env.locate (nestedQuery req cfg scr a) = .ok (f a)) →
      ∀ acc sc, anchorLoop env req cfg scr anchors acc sc =
        .ok (acc ++ anchors.flatMap f,
             sc ++ anchors.map fun a => deriveRegion cfg a.x a.y) := by
  intro anchors
  induction anchors with
  | nil =>
    intro _ acc sc
    simp [anchorLoop]
  | cons a rest ih =>
    intro hnest acc sc
    have hguard : ¬((deriveRegion cfg a.x a.y).w ≤ 0 ∨ (deriveRegion cfg a.x a.y).h ≤ 0) := by
      rw [deriveRegion_w, deriveRegion_h]
      omega
    rw [anchorLoop, if_neg hguard, hnest a (List.mem_cons_self a rest)]
    show anchorLoop env req cfg scr rest (acc ++ f a ++ []) (sc ++ [deriveRegion cfg a.x a.y]) = _
    rw [ih (fun b hb => hnest b (List.mem_cons_of_mem a hb)) _ _]
    simp

theorem anchorLoop_all_degenerate (env : Env) (req : ImageRequest) (cfg : AnchorConfig)
    (scr : Rect)
    (hdeg : cfg.w + (cfg.margin_x.getD 0) * 2 ≤ 0 ∨
            cfg.h + (cfg.margin_y.getD 0) * 2 ≤ 0) :
    ∀ anchors acc sc, anchorLoop env req cfg scr anchors acc sc = .ok (acc, sc) := by
  intro anchors
  induction anchors with
  | nil =>
    intro acc sc
    simp [anchorLoop]
  | cons a rest ih =>
    intro acc sc
    have hguard : (deriveRegion cfg a.x a.y).w ≤ 0 ∨ (deriveRegion cfg a.x a.y).h ≤ 0 := by
      rw [deriveRegion_w, deriveRegion_h]
      omega
    rw [anchorLoop, if_pos hguard]
    exact ih acc sc

theorem runImageDetection_oob (env : Env) (req : ImageRequest)
    (h : ¬ req.screen_idx < env.monitors.length) :
    runImageDetection env req = ([], [], [], 0) := by
  unfold runImageDetection
  rw [dif_neg h]

theorem runImageDetection_anchor_branch (env : Env) (req : ImageRequest)
    (aimg : Img) (cfg : AnchorConfig)
    (h : req.screen_idx < env.monitors.length)
    (ha : req.anchor_img = some aimg) (hc : req.anchor_config = some cfg) :
    runImageDetection env req =
      match env.locate (anchorQuery req aimg) with
      | .error _ => ([], [], [], 0)
      | .ok anchors_list =>
        match anchorLoop env req cfg (env.monitors.get ⟨req.screen_idx, h⟩)
            anchors_list [] [] with
        | .error _ => ([], [], [], 0)
        | .ok (final_rects, scanned_regions) =>
          (final_rects, anchors_list, scanned_regions, final_rects.length) := by
  unfold runImageDetection
  rw [dif_pos h, ha, hc]

theorem runTextExtraction_oob (env : Env) (req : TextRequest)
    (h : ¬ req.screen_idx < env.monitors.length) :
    runTextExtraction env req = [] := by
  unfold runTextExtraction
  rw [if_neg h]

theorem runTextExtraction_static (env : Env) (req : TextRequest)
    (hscr : req.screen_idx < env.monitors.length)
    (h : req.anchor_img = none ∨ req.anchor_config = none ∨ req.text_rect = none) :
    runTextExtraction env req = textTail env req req.text_rect := by
  unfold runTextExtraction
  rw [if_pos hscr]
  rcases hai : req.anchor_img with _ | aimg
  · rfl
  · rcases hac : req.anchor_config with _ | cfg
    · rfl
    · rcases htr : req.text_rect with _ | tr
      · rfl
      · rcases h with h | h | h
        · rw [h] at hai
          cases hai
        · rw [h] at hac
          cases hac
        · rw [h] at htr
          cases htr

theorem runTextExtraction_anchor (env : Env) (req : TextRequest) (aimg : Img)
    (cfg : AnchorConfig) (tr : Rect)
    (hscr : req.screen_idx < env.monitors.length)
    (hai : req.anchor_img = some aimg) (hac : req.anchor_config = some cfg)
    (htr : req.text_rect = some tr) :
    runTextExtraction env req =
      match env.locate (textAnchorQuery req aimg) with
      | .error e => [⟨none, "Error: " ++ e⟩]
      | .ok [] => [⟨none, "Anchor not found"⟩]
      | .ok (a :: _) =>
        textTail env req (some ⟨a.x + tr.x, a.y + tr.y, tr.w, tr.h⟩) := by
  unfold runTextExtraction
  rw [if_pos hscr, hai, hac, htr]

theorem textTail_some (env : Env) (req : TextRequest) (fr : Rect) (off : TextOffsets)
    (hoff : req.text_offsets = some off) :
    textTail env req (some fr) =
      match env.capture req.sess (applyOffsets fr off) with
      | .error e => [⟨none, "Error: " ++ e⟩]
      | .ok none => [⟨none, "Capture Error"⟩]
      | .ok (some img_data) => [⟨some img_data, ocrText env req img_data⟩] := by
  show (match req.text_offsets with
        | none => ([⟨none, "Error: cannot unpack non-iterable NoneType object"⟩] :
            List TextEmission)
        | some off2 =>
          match env.capture req.sess (applyOffsets fr off2) with
          | .error e => [⟨none, "Error: " ++ e⟩]
          | .ok none => [⟨none, "Capture Error"⟩]
          | .ok (some img_data) => [⟨some img_data, ocrText env req img_data⟩]) = _
  rw [hoff]

theorem textTail_no_offsets (env : Env) (req : TextRequest) (fr : Rect)
    (hoff : req.text_offsets = none) :
    textTail env req (some fr) =
      [⟨none, "Error: cannot unpack non-iterable NoneType object"⟩] := by
  show (match req.text_offsets with
        | none => ([⟨none, "Error: cannot unpack non-iterable NoneType object"⟩] :
            List TextEmission)
        | some off2 =>
          match env.capture req.sess (applyOffsets fr off2) with
          | .error e => [⟨none, "Error: " ++ e⟩]
          | .ok none => [⟨none, "Capture Error"⟩]
          | .ok (some img_data) => [⟨some img_data, ocrText env req img_data⟩]) = _
  rw [hoff]

theorem textTail_exhaustive (env : Env) (req : TextRequest) (fr : Rect) :
    (req.text_offsets = none ∧ textTail env req (some fr) =
      [⟨none, "Error: cannot unpack non-iterable NoneType object"⟩]) ∨
    (∃ off e, req.text_offsets = some off ∧
      env.capture req.sess (applyOffsets fr off) = .error e ∧
      textTail env req (some fr) = [⟨none, "Error: " ++ e⟩]) ∨
    (∃ off, req.text_offsets = some off ∧
      env.capture req.sess (applyOffsets fr off) = .ok none ∧
      textTail env req (some fr) = [⟨none, "Capture Error"⟩]) ∨
    (∃ off img, req.text_offsets = some off ∧
      env.capture req.sess (applyOffsets fr off) = .ok (some img) ∧
      textTail env req (some fr) = [⟨some img, ocrText env req img⟩]) := by
  rcases hoff : req.text_offsets with _ | off
  · exact Or.inl ⟨rfl, textTail_no_offsets env req fr hoff⟩
  · rw [textTail_some env req fr off hoff]
    rcases hcap : env.capture req.sess (applyOffsets fr off) with e | oi
    · exact Or.inr (Or.inl ⟨off, e, rfl, hcap, rfl⟩)
    · rcases oi with _ | img
      · exact Or.inr (Or.inr (Or.inl ⟨off, rfl, hcap, rfl⟩))
      · exact Or.inr (Or.inr (Or.inr ⟨off, img, rfl, hcap, rfl⟩))

theorem errorTextNe (e s : String)
    (h : s.data.take ("Error: ".data.length) ≠ "Error: ".data) :
    "Error: " ++ e ≠ s := by
  intro heq
  apply h
  have h2 := congrArg String.data heq
  rw [String.data_append] at h2
  rw [← h2, List.take_left]

/-! ## Claim theorems -/

/-- C4: for every rect `R` and origin `O`, `local_to_global` and
`global_to_local` are mutually inverse — both round trips restore `R`
exactly — and neither operation changes width or height. -/
theorem c4_coordinate_roundtrip (r : Rect) (o : Int × Int) :
    local_to_global (global_to_local r o) o = r ∧
    global_to_local (local_to_global r o) o = r ∧
    (global_to_local r o).w = r.w ∧ (global_to_local r o).h = r.h ∧
    (local_to_global r o).w = r.w ∧ (local_to_global r o).h = r.h := by
  cases r
  simp [global_to_local, local_to_global]

/-- C3: the derived absolute region the detection pipeline computes for an
anchor match at `(ax, ay)` with offset `(ox, oy)`, size `(w, h)` and margins
`(mx, my)` is `(ax + ox − mx, ay + oy − my, w + 2·mx, h + 2·my)`; in
particular the spec's example instance yields `(205, 305, 110, 60)`. -/
theorem c3_derived_region (ox oy w h mx my ax ay : Int) :
    deriveRegion ⟨ox, oy, w, h, some mx, some my⟩ ax ay =
      ⟨ax + ox - mx, ay + oy - my, w + 2 * mx, h + 2 * my⟩ ∧
    deriveRegion ⟨10, 10, 100, 50, some 5, some 5⟩ 200 300 = ⟨205, 305, 110, 60⟩ := by
  constructor
  · simp [deriveRegion, global_to_local, local_to_global]
    constructor
    · ring
    · constructor
      · ring
      · constructor <;> ring
  · decide

/-- C5: the per-request scale factors — in `dpr` mode
`target_dpr / source_dpr` on both axes when both DPRs are present and
nonzero and `(1, 1)` when either is missing or zero; in `resolution` mode
`target / source` per axis when `source_resolution` is present with both
components positive and `(1, 1)` otherwise.  `computeScale` is a total
function, so the pair is always defined. -/
theorem c5_scale_factors (sd td : ℚ) (sdo tdo : Option ℚ)
    (sro : Option (Int × Int)) (sw sh : Int) (scr : Rect) :
    (sd ≠ 0 → td ≠ 0 →
      computeScale "dpr" (some sd) (some td) sro scr = (td / sd, td / sd)) ∧
    (¬(truthyQ sdo ∧ truthyQ tdo) →
      computeScale "dpr" sdo tdo sro scr = (1, 1)) ∧
    (0 < sw → 0 < sh →
      computeScale "resolution" sdo tdo (some (sw, sh)) scr =
        ((scr.w : ℚ) / (sw : ℚ), (scr.h : ℚ) / (sh : ℚ))) ∧
    computeScale "resolution" sdo tdo none scr = (1, 1) ∧
    (¬(0 < sw ∧ 0 < sh) →
      computeScale "resolution" sdo tdo (some (sw, sh)) scr = (1, 1)) := by
  refine ⟨?_, ?_, ?_, ?_, ?_⟩
  · intro hsd htd
    simp [computeScale, truthyQ, hsd, htd]
  · intro hnot
    simp [computeScale, hnot]
  · intro hsw hsh
    simp [computeScale, hsw, hsh]
  · simp [computeScale]
  · intro hnot
    simp [computeScale, hnot]

/-- C1: with an anchor configured, in-range screen and non-degenerate
derived regions, the emitted match list is the concatenation of the nested
scans' match lists in anchor order, the emitted count is its length, and
each rectangle occurs in it exactly as often as the per-anchor scans
returned it (once per scan that produced it — the `extend(list(targets))`
at `detection.py:237` re-reads an exhausted iterator and adds nothing). -/
theorem c1_nested_scan_aggregation (env : Env) (req : ImageRequest) (aimg : Img)
    (cfg : AnchorConfig) (anchors : List Rect) (f : Rect → List Rect)
    (hscr : req.screen_idx < env.monitors.length)
    (ha : req.anchor_img = some aimg) (hc : req.anchor_config = some cfg)
    (hw : 0 < cfg.w + (cfg.margin_x.getD 0) * 2)
    (hh : 0 < cfg.h + (cfg.margin_y.getD 0) * 2)
    (hanc : env.locate (anchorQuery req aimg) = .ok anchors)
    (hnest : ∀ a ∈ anchors,
      env.locate (nestedQuery req cfg (env.monitors.get ⟨req.screen_idx, hscr⟩) a) =
        .ok (f a)) :
    runImageDetection env req =
      (anchors.flatMap f, anchors,
       anchors.map (fun a => deriveRegion cfg a.x a.y), (anchors.flatMap f).length)
    ∧ ∀ r : Rect,
        (anchors.flatMap f).count r = (anchors.map fun a => (f a).count r).sum := by
  constructor
  · rw [runImageDetection_anchor_branch env req aimg cfg hscr ha hc]
    simp only [hanc]
    rw [anchorLoop_all_ok env req cfg _ f hw hh anchors hnest [] []]
    simp
  · intro r
    exact count_flatMap f r anchors

/-- The anchor template used by the C1 witness scenario. -/
def c1Cfg : AnchorConfig := ⟨10, 10, 100, 50, some 5, some 5⟩

/-- Per-anchor nested results of the C1 witness scenario. -/
def c1f : Rect → List Rect := fun a =>
  if a.x = 100 then [⟨1, 1, 2, 2⟩] else [⟨3, 3, 2, 2⟩]

/-- Oracle environment of the C1 witness scenario: anchor searches (image
`1`) find two anchors; the nested scan over the first anchor's derived
region finds one rectangle, the one over the second another. -/
def c1Env : Env where
  monitors := [⟨0, 0, 1920, 1080⟩]
  monitor_dpr := fun _ => some 1
  locate := fun q =>
    if q.image = some 1 then .ok [⟨100, 100, 30, 30⟩, ⟨300, 300, 30, 30⟩]
    else if q.region = some (global_to_local (deriveRegion c1Cfg 100 100) (0, 0)) then
      .ok [⟨1, 1, 2, 2⟩]
    else .ok [⟨3, 3, 2, 2⟩]
  capture := fun _ _ => .ok none
  ocr := fun _ _ _ => .ok []

/-- A detection request with anchor image `1` and template image `2`. -/
def c1Req : ImageRequest :=
  ⟨some 2, 0, 9/10, true, 1/2, some 1, some c1Cfg, none, some 1, none, "dpr"⟩

/-- Witness for C1: in the concrete two-anchor scenario the emitted result
concatenates the two nested scans' single matches in anchor order with
count `2`, and the count instance of the exactly-once property holds. -/
theorem c1_nested_scan_aggregation_witness :
    runImageDetection c1Env c1Req =
      ([⟨1, 1, 2, 2⟩, ⟨3, 3, 2, 2⟩],
       [⟨100, 100, 30, 30⟩, ⟨300, 300, 30, 30⟩],
       [deriveRegion c1Cfg 100 100, deriveRegion c1Cfg 300 300], 2) ∧
    (([⟨100, 100, 30, 30⟩, ⟨300, 300, 30, 30⟩] : List Rect).flatMap c1f).count ⟨1, 1, 2, 2⟩ =
      (([⟨100, 100, 30, 30⟩, ⟨300, 300, 30, 30⟩] : List Rect).map
        fun a => (c1f a).count ⟨1, 1, 2, 2⟩).sum := by
  have h := c1_nested_scan_aggregation c1Env c1Req 1 c1Cfg
    [⟨100, 100, 30, 30⟩, ⟨300, 300, 30, 30⟩] c1f (by decide) rfl rfl
    (by decide) (by decide) (by decide) (by decide)
  refine ⟨?_, h.2 ⟨1, 1, 2, 2⟩⟩
  rw [h.1]
  decide

/-- C6: an anchor whose derived region has non-positive width or height is
skipped — the loop step over it leaves both accumulators unchanged — so it
contributes no scanned region and no matches, and the pipeline still
completes and emits a result (here: empty matches and scanned regions, the
located anchors, count `0`). -/
theorem c6_degenerate_region_skipped (env : Env) (req : ImageRequest) (aimg : Img)
    (cfg : AnchorConfig) (anchors : List Rect)
    (hscr : req.screen_idx < env.monitors.length)
    (ha : req.anchor_img = some aimg) (hc : req.anchor_config = some cfg)
    (hdeg : cfg.w + (cfg.margin_x.getD 0) * 2 ≤ 0 ∨
            cfg.h + (cfg.margin_y.getD 0) * 2 ≤ 0)
    (hanc : env.locate (anchorQuery req aimg) = .ok anchors) :
    runImageDetection env req = ([], anchors, [], 0)
    ∧ ∀ (scr a : Rect) (rest acc sc : List Rect),
        anchorLoop env req cfg scr (a :: rest) acc sc =
          anchorLoop env req cfg scr rest acc sc := by
  constructor
  · rw [runImageDetection_anchor_branch env req aimg cfg hscr ha hc]
    simp only [hanc]
    rw [anchorLoop_all_degenerate env req cfg _ hdeg anchors [] []]
    rfl
  · intro scr a rest acc sc
    have hguard : (deriveRegion cfg a.x a.y).w ≤ 0 ∨ (deriveRegion cfg a.x a.y).h ≤ 0 := by
      rcases hdeg with h | h
      · left
        rw [deriveRegion_w]
        exact h
      · right
        rw [deriveRegion_h]
        exact h
    rw [anchorLoop, if_pos hguard]

/-- Oracle environment of the C6 witness scenario: the anchor search finds
one anchor; any nested scan would find a rectangle (but must never run). -/
def c6Env : Env where
  monitors := [⟨0, 0, 1920, 1080⟩]
  monitor_dpr := fun _ => some 1
  locate := fun q =>
    if q.image = some 1 then .ok [⟨100, 100, 30, 30⟩] else .ok [⟨9, 9, 9, 9⟩]
  capture := fun _ _ => .ok none
  ocr := fun _ _ _ => .ok []

/-- A request whose anchor config derives a degenerate region:
`w + 2·margin_x = -20 + 10 = -10 ≤ 0`. -/
def c6Req : ImageRequest :=
  ⟨some 2, 0, 9/10, true, 1/2, some 1, some ⟨10, 10, -20, 50, some 5, some 5⟩, none,
   some 1, none, "dpr"⟩

/-- Witness for C6: the degenerate-config request completes with no matches
and no scanned regions while still reporting the located anchor. -/
theorem c6_degenerate_region_skipped_witness :
    runImageDetection c6Env c6Req = ([], [⟨100, 100, 30, 30⟩], [], 0) := by
  exact (c6_degenerate_region_skipped c6Env c6Req 1 ⟨10, 10, -20, 50, some 5, some 5⟩
    [⟨100, 100, 30, 30⟩] (by decide) rfl rfl (by decide) (by decide)).1

/-- C7: `run_image_detection` emits exactly the canonical empty result
`([], [], [], 0)` when the screen index is out of range, when the anchor
search finds zero anchors, when the anchor search raises, when the direct
(anchorless) search raises, and when a nested scan raises; no exception
crosses the boundary (the function is total and always emits). -/
theorem c7_canonical_empty (env : Env) (req : ImageRequest) :
    (req.screen_idx ≥ env.monitors.length → runImageDetection env req = ([], [], [], 0))
    ∧ (∀ aimg cfg, req.anchor_img = some aimg → req.anchor_config = some cfg →
        env.locate (anchorQuery req aimg) = .ok [] →
        runImageDetection env req = ([], [], [], 0))
    ∧ (∀ aimg cfg e, req.anchor_img = some aimg → req.anchor_config = some cfg →
        env.locate (anchorQuery req aimg) = .error e →
        runImageDetection env req = ([], [], [], 0))
    ∧ (∀ e, (req.anchor_img = none ∨ req.anchor_config = none) →
        env.locate (directQuery req) = .error e →
        runImageDetection env req = ([], [], [], 0))
    ∧ (∀ (hscr : req.screen_idx < env.monitors.length) aimg cfg a rest e,
        req.anchor_img = some aimg → req.anchor_config = some cfg →
        env.locate (anchorQuery req aimg) = .ok (a :: rest) →
        env.locate (nestedQuery req cfg (env.monitors.get ⟨req.screen_idx, hscr⟩) a) =
          .error e →
        ¬((deriveRegion cfg a.x a.y).w ≤ 0 ∨ (deriveRegion cfg a.x a.y).h ≤ 0) →
        runImageDetection env req = ([], [], [], 0)) := by
  refine ⟨?_, ?_, ?_, ?_, ?_⟩
  · intro h
    exact runImageDetection_oob env req (Nat.not_lt.mpr h)
  · intro aimg cfg ha hc hanc
    by_cases hscr : req.screen_idx < env.monitors.length
    · rw [runImageDetection_anchor_branch env req aimg cfg hscr ha hc]
      simp only [hanc]
      rfl
    · exact runImageDetection_oob env req hscr
  · intro aimg cfg e ha hc hanc
    by_cases hscr : req.screen_idx < env.monitors.length
    · rw [runImageDetection_anchor_branch env req aimg cfg hscr ha hc]
      simp only [hanc]
    · exact runImageDetection_oob env req hscr
  · intro e hor hdir
    by_cases hscr : req.screen_idx < env.monitors.length
    · unfold runImageDetection
      rw [dif_pos hscr]
      rcases hai : req.anchor_img with _ | aimg
      · rcases hac : req.anchor_config with _ | cfg <;> simp only [hdir]
      · rcases hac : req.anchor_config with _ | cfg
        · simp only [hdir]
        · rcases hor with h | h
          · exact absurd hai (by rw [h]; intro hx; cases hx)
          · exact absurd hac (by rw [h]; intro hx; cases hx)
    · exact runImageDetection_oob env req hscr
  · intro hscr aimg cfg a rest e ha hc hanc hnerr hguard
    rw [runImageDetection_anchor_branch env req aimg cfg hscr ha hc]
    simp only [hanc]
    have hstep : anchorLoop env req cfg (env.monitors.get ⟨req.screen_idx, hscr⟩)
        (a :: rest) [] [] = .error e := by
      rw [anchorLoop, if_neg hguard, hnerr]
    rw [hstep]

/-- Oracle environment of the C7 witness scenario: every search finds
nothing. -/
def c7Env : Env where
  monitors := [⟨0, 0, 1920, 1080⟩]
  monitor_dpr := fun _ => some 1
  locate := fun _ => .ok []
  capture := fun _ _ => .ok none
  ocr := fun _ _ _ => .ok []

/-- An anchorless request aimed at a non-existent screen `5`. -/
def c7OobReq : ImageRequest :=
  ⟨some 2, 5, 9/10, true, 1/2, none, none, none, some 1, none, "dpr"⟩

/-- An anchor-configured request whose anchor search finds zero anchors. -/
def c7ZeroAnchorReq : ImageRequest :=
  ⟨some 2, 0, 9/10, true, 1/2, some 1, some ⟨10, 10, 100, 50, some 5, some 5⟩, none,
   some 1, none, "dpr"⟩

/-- Witness for C7: the out-of-range request and the zero-anchor request
both emit the canonical empty result. -/
theorem c7_canonical_empty_witness :
    runImageDetection c7Env c7OobReq = ([], [], [], 0) ∧
    runImageDetection c7Env c7ZeroAnchorReq = ([], [], [], 0) := by
  constructor
  · exact (c7_canonical_empty c7Env c7OobReq).1 (by decide)
  · exact (c7_canonical_empty c7Env c7ZeroAnchorReq).2.1 1
      ⟨10, 10, 100, 50, some 5, some 5⟩ rfl rfl rfl

/-- Witness for C5 at the spec's concrete instances: resolution scaling
`(1920, 1080) → (3840, 2160)` yields `(2, 2)`, and DPR scaling from
`1` to `2` yields `(2, 2)`. -/
theorem c5_scale_factors_witness :
    computeScale "resolution" none none (some (1920, 1080)) ⟨0, 0, 3840, 2160⟩ =
      ((2 : ℚ), (2 : ℚ)) ∧
    computeScale "dpr" (some 1) (some 2) none ⟨0, 0, 0, 0⟩ = ((2 : ℚ), (2 : ℚ)) := by
  have h1 := (c5_scale_factors 1 2 none none (some (1920, 1080)) 1920 1080
    ⟨0, 0, 3840, 2160⟩).2.2.1 (by norm_num) (by norm_num)
  have h2 := (c5_scale_factors 1 2 (some 1) (some 2) none 1920 1080
    ⟨0, 0, 0, 0⟩).1 (by norm_num) (by norm_num)
  constructor
  · rw [h1]
    norm_num
  · rw [h2]
    norm_num

/-- Oracle environment for the text-extraction scenarios: one monitor,
searches find nothing, capture succeeds with image `5`, OCR reads
`"hello"`. -/
def textEnv0 : Env where
  monitors := [⟨0, 0, 1920, 1080⟩]
  monitor_dpr := fun _ => some 1
  locate := fun _ => .ok []
  capture := fun _ _ => .ok (some 5)
  ocr := fun _ _ _ => .ok ["hello"]

/-- A text request aimed at screen `3` of a one-monitor environment. -/
def c2OobReq : TextRequest :=
  ⟨3, 9/10, true, 1/2, none, none, none, some 1, none, "dpr", "en-US", "clean",
   false, some ⟨10, 10, 20, 20⟩, some ⟨0, 0, 0, 0⟩⟩

/-- Counterexample to C2: a region-capture request whose monitor index is
out of range emits nothing at all — the list of delivered results is empty,
not a one-element failure result (`detection.py:62-63` is a bare `return`
before any `text_signal.emit`). -/
theorem c2_counterexample :
    runTextExtraction textEnv0 c2OobReq = [] ∧
    c2OobReq.screen_idx ≥ textEnv0.monitors.length := by
  exact ⟨rfl, by decide⟩

/-- C2 (amended): `run_text_extraction` delivers at most one result and
never raises across the boundary; a request whose monitor index is in range
delivers exactly one result, while an out-of-range index delivers no result
at all (silent early return). -/
theorem c2_amended_single_result (env : Env) (req : TextRequest) :
    (runTextExtraction env req).length ≤ 1
    ∧ (req.screen_idx ≥ env.monitors.length → runTextExtraction env req = [])
    ∧ (req.screen_idx < env.monitors.length →
        (runTextExtraction env req).length = 1) := by
  by_cases hscr : req.screen_idx < env.monitors.length
  · have hlen : (runTextExtraction env req).length = 1 := by
      rcases hai : req.anchor_img with _ | aimg
      · rw [runTextExtraction_static env req hscr (Or.inl hai)]
        exact textTail_length env req req.text_rect
      · rcases hac : req.anchor_config with _ | cfg
        · rw [runTextExtraction_static env req hscr (Or.inr (Or.inl hac))]
          exact textTail_length env req req.text_rect
        · rcases htr : req.text_rect with _ | tr
          · rw [runTextExtraction_static env req hscr (Or.inr (Or.inr htr))]
            exact textTail_length env req req.text_rect
          · rw [runTextExtraction_anchor env req aimg cfg tr hscr hai hac htr]
            rcases hloc : env.locate (textAnchorQuery req aimg) with e | l
            · rfl
            · rcases l with _ | ⟨a, rest⟩
              · rfl
              · exact textTail_length env req _
    refine ⟨?_, ?_, fun _ => hlen⟩
    · rw [hlen]
    · intro hge
      exact absurd hscr (Nat.not_lt.mpr hge)
  · have h0 : runTextExtraction env req = [] := runTextExtraction_oob env req hscr
    refine ⟨?_, fun _ => h0, fun hlt => absurd hlt hscr⟩
    rw [h0]
    exact Nat.zero_le 1

/-- An in-range variant of the C2 scenario request. -/
def c2InReq : TextRequest :=
  ⟨0, 9/10, true, 1/2, none, none, none, some 1, none, "dpr", "en-US", "clean",
   false, some ⟨10, 10, 20, 20⟩, some ⟨0, 0, 0, 0⟩⟩

/-- Witness for the amended C2: the in-range request delivers exactly one
result. -/
theorem c2_amended_single_result_witness :
    (runTextExtraction textEnv0 c2InReq).length = 1 :=
  (c2_amended_single_result textEnv0 c2InReq).2.2 (by decide)

/-- C8: the adjusted capture region is
`(x − left, y − top, w + left + right, h + top + bottom)`; the spec's
example instance yields `(9, 8, 25, 25)`; and on the static path the
pipeline hands exactly `applyOffsets` of the resolved region to the capture
primitive. -/
theorem c8_fine_tune_offsets :
    (∀ (fr : Rect) (off : TextOffsets),
      applyOffsets fr off =
        ⟨fr.x - off.left, fr.y - off.top, fr.w + off.left + off.right,
         fr.h + off.top + off.bottom⟩) ∧
    applyOffsets ⟨10, 10, 20, 20⟩ ⟨2, 3, 1, 4⟩ = ⟨9, 8, 25, 25⟩ ∧
    (∀ (env : Env) (req : TextRequest) (fr : Rect) (off : TextOffsets),
      req.screen_idx < env.monitors.length →
      req.anchor_img = none →
      req.text_rect = some fr →
      req.text_offsets = some off →
      runTextExtraction env req =
        match env.capture req.sess (applyOffsets fr off) with
        | .error e => [⟨none, "Error: " ++ e⟩]
        | .ok none => [⟨none, "Capture Error"⟩]
        | .ok (some img_data) => [⟨some img_data, ocrText env req img_data⟩]) := by
  refine ⟨fun fr off => rfl, by decide, ?_⟩
  intro env req fr off hscr hai htr hoff
  rw [runTextExtraction_static env req hscr (Or.inl hai), htr]
  exact textTail_some env req fr off hoff

/-- Oracle environment of the C8 witness scenario: capture returns image
`7` exactly when asked for the adjusted region `(9, 8, 25, 25)` and no data
otherwise. -/
def c8Env : Env where
  monitors := [⟨0, 0, 1920, 1080⟩]
  monitor_dpr := fun _ => some 1
  locate := fun _ => .ok []
  capture := fun _ r => if r = ⟨9, 8, 25, 25⟩ then .ok (some 7) else .ok none
  ocr := fun _ _ _ => .ok ["hello"]

/-- A static-region text request with base region `(10, 10, 20, 20)` and
fine-tune offsets `(top 2, bottom 3, left 1, right 4)`. -/
def c8Req : TextRequest :=
  ⟨0, 9/10, true, 1/2, none, none, none, some 1, none, "dpr", "en-US", "clean",
   false, some ⟨10, 10, 20, 20⟩, some ⟨2, 3, 1, 4⟩⟩

/-- Witness for C8: the pipeline captures `(9, 8, 25, 25)` — the
environment only yields image `7` there — and emits it with the OCR text. -/
theorem c8_fine_tune_offsets_witness :
    runTextExtraction c8Env c8Req = [⟨some 7, "hello"⟩] := by
  have h := c8_fine_tune_offsets.2.2 c8Env c8Req ⟨10, 10, 20, 20⟩ ⟨2, 3, 1, 4⟩
    (by decide) rfl rfl rfl
  rw [h]
  rfl

theorem runTextExtraction_exhaustive (env : Env) (req : TextRequest)
    (hscr : req.screen_idx < env.monitors.length) :
    (req.text_rect = none ∧
      runTextExtraction env req = [⟨none, "No region defined"⟩]) ∨
    (∃ e, runTextExtraction env req = [⟨none, "Error: " ++ e⟩]) ∨
    (∃ aimg cfg tr, req.anchor_img = some aimg ∧ req.anchor_config = some cfg ∧
      req.text_rect = some tr ∧ env.locate (textAnchorQuery req aimg) = .ok [] ∧
      runTextExtraction env req = [⟨none, "Anchor not found"⟩]) ∨
    (∃ fr, runTextExtraction env req = textTail env req (some fr)) := by
  rcases hai : req.anchor_img with _ | aimg
  · rcases htr : req.text_rect with _ | tr
    · refine Or.inl ⟨rfl, ?_⟩
      rw [runTextExtraction_static env req hscr (Or.inl hai), htr]
      rfl
    · refine Or.inr (Or.inr (Or.inr ⟨tr, ?_⟩))
      rw [runTextExtraction_static env req hscr (Or.inl hai), htr]
  · rcases hac : req.anchor_config with _ | cfg
    · rcases htr : req.text_rect with _ | tr
      · refine Or.inl ⟨rfl, ?_⟩
        rw [runTextExtraction_static env req hscr (Or.inr (Or.inl hac)), htr]
        rfl
      · refine Or.inr (Or.inr (Or.inr ⟨tr, ?_⟩))
        rw [runTextExtraction_static env req hscr (Or.inr (Or.inl hac)), htr]
    · rcases htr : req.text_rect with _ | tr
      · refine Or.inl ⟨rfl, ?_⟩
        rw [runTextExtraction_static env req hscr (Or.inr (Or.inr htr)), htr]
        rfl
      · rcases hloc : env.locate (textAnchorQuery req aimg) with e | l
        · refine Or.inr (Or.inl ⟨e, ?_⟩)
          rw [runTextExtraction_anchor env req aimg cfg tr hscr hai hac htr, hloc]
        · rcases l with _ | ⟨a, rest⟩
          · refine Or.inr (Or.inr (Or.inl ⟨aimg, cfg, tr, rfl, rfl, rfl, hloc, ?_⟩))
            rw [runTextExtraction_anchor env req aimg cfg tr hscr hai hac htr, hloc]
          · refine Or.inr (Or.inr (Or.inr ⟨⟨a.x + tr.x, a.y + tr.y, tr.w, tr.h⟩, ?_⟩))
            rw [runTextExtraction_anchor env req aimg cfg tr hscr hai hac htr, hloc]

/-- A text request with anchor image and anchor config both set but no base
rect. -/
def c9NoRectReq : TextRequest :=
  ⟨0, 9/10, true, 1/2, some 1, some ⟨10, 10, 100, 50, some 0, some 0⟩, none, some 1,
   none, "dpr", "en-US", "clean", false, none, some ⟨0, 0, 0, 0⟩⟩

/-- Counterexample to C9: a request with an anchor fully configured but no
base rect fails with `"No region defined"`, so that reason is not reserved
for "no anchor configured and no base rect" — the code keys it on the base
rect alone (`detection.py:69,96-102`). -/
theorem c9_counterexample :
    runTextExtraction textEnv0 c9NoRectReq = [⟨none, "No region defined"⟩] ∧
    c9NoRectReq.anchor_img.isSome = true ∧
    c9NoRectReq.anchor_config.isSome = true ∧
    c9NoRectReq.text_rect = none := by
  exact ⟨rfl, rfl, rfl, rfl⟩

/-- C9 (amended): for an in-range request, `"Anchor not found"` is emitted
exactly when anchor image, anchor config and base rect are all configured
and the anchor search returns no matches; `"No region defined"` exactly
when the base rect is absent, regardless of the anchor configuration;
`"Capture Error"` exactly when a region was resolved and the capture
primitive returned no data; the three reasons are pairwise distinct and are
delivered inside the returned emission, never raised. -/
theorem c9_amended_failure_reasons (env : Env) (req : TextRequest)
    (hscr : req.screen_idx < env.monitors.length) :
    (∀ aimg cfg tr, req.anchor_img = some aimg → req.anchor_config = some cfg →
      req.text_rect = some tr → env.locate (textAnchorQuery req aimg) = .ok [] →
      runTextExtraction env req = [⟨none, "Anchor not found"⟩])
    ∧ (req.text_rect = none →
        runTextExtraction env req = [⟨none, "No region defined"⟩])
    ∧ (∀ aimg cfg tr a rest off, req.anchor_img = some aimg →
        req.anchor_config = some cfg → req.text_rect = some tr →
        env.locate (textAnchorQuery req aimg) = .ok (a :: rest) →
        req.text_offsets = some off →
        env.capture req.sess
          (applyOffsets ⟨a.x + tr.x, a.y + tr.y, tr.w, tr.h⟩ off) = .ok none →
        runTextExtraction env req = [⟨none, "Capture Error"⟩])
    ∧ (∀ tr off, (req.anchor_img = none ∨ req.anchor_config = none) →
        req.text_rect = some tr → req.text_offsets = some off →
        env.capture req.sess (applyOffsets tr off) = .ok none →
        runTextExtraction env req = [⟨none, "Capture Error"⟩])
    ∧ (runTextExtraction env req = [⟨none, "No region defined"⟩] →
        req.text_rect = none)
    ∧ (runTextExtraction env req = [⟨none, "Anchor not found"⟩] →
        ∃ aimg cfg tr, req.anchor_img = some aimg ∧ req.anchor_config = some cfg ∧
          req.text_rect = some tr ∧ env.locate (textAnchorQuery req aimg) = .ok [])
    ∧ (runTextExtraction env req = [⟨none, "Capture Error"⟩] →
        ∃ r off, req.text_offsets = some off ∧
          env.capture req.sess (applyOffsets r off) = .ok none)
    ∧ ((⟨none, "Anchor not found"⟩ : TextEmission) ≠ ⟨none, "No region defined"⟩ ∧
       (⟨none, "Anchor not found"⟩ : TextEmission) ≠ ⟨none, "Capture Error"⟩ ∧
       (⟨none, "No region defined"⟩ : TextEmission) ≠ ⟨none, "Capture Error"⟩) := by
  refine ⟨?_, ?_, ?_, ?_, ?_, ?_, ?_, by decide, by decide, by decide⟩
  · intro aimg cfg tr hai hac htr hloc
    rw [runTextExtraction_anchor env req aimg cfg tr hscr hai hac htr, hloc]
  · intro htr
    rw [runTextExtraction_static env req hscr (Or.inr (Or.inr htr)), htr]
    rfl
  · intro aimg cfg tr a rest off hai hac htr hloc hoff hcap
    rw [runTextExtraction_anchor env req aimg cfg tr hscr hai hac htr, hloc]
    show textTail env req (some ⟨a.x + tr.x, a.y + tr.y, tr.w, tr.h⟩) = _
    rw [textTail_some env req _ off hoff, hcap]
  · intro tr off h htr hoff hcap
    have hstat : runTextExtraction env req = textTail env req req.text_rect := by
      rcases h with h | h
      · exact runTextExtraction_static env req hscr (Or.inl h)
      · exact runTextExtraction_static env req hscr (Or.inr (Or.inl h))
    rw [hstat, htr, textTail_some env req tr off hoff, hcap]
  · intro h
    rcases runTextExtraction_exhaustive env req hscr with
      ⟨htr, _⟩ | ⟨e, hrun⟩ | ⟨aimg, cfg, tr, _, _, _, _, hrun⟩ | ⟨fr, hrun⟩
    · exact htr
    · rw [hrun] at h
      simp only [List.cons.injEq, and_true] at h
      exact absurd (congrArg TextEmission.text h) (errorTextNe e _ (by decide))
    · rw [hrun] at h
      exact absurd h (by decide)
    · rw [hrun] at h
      rcases textTail_exhaustive env req fr with
        ⟨_, ht⟩ | ⟨off, e, _, _, ht⟩ | ⟨off, _, _, ht⟩ | ⟨off, img, _, _, ht⟩
      · rw [ht] at h
        exact absurd h (by decide)
      · rw [ht] at h
        simp only [List.cons.injEq, and_true] at h
        exact absurd (congrArg TextEmission.text h) (errorTextNe e _ (by decide))
      · rw [ht] at h
        exact absurd h (by decide)
      · rw [ht] at h
        simp only [List.cons.injEq, and_true] at h
        exact Option.noConfusion (congrArg TextEmission.image h)
  · intro h
    rcases runTextExtraction_exhaustive env req hscr with
      ⟨_, hrun⟩ | ⟨e, hrun⟩ | ⟨aimg, cfg, tr, hai, hac, htr, hloc, _⟩ | ⟨fr, hrun⟩
    · rw [hrun] at h
      exact absurd h (by decide)
    · rw [hrun] at h
      simp only [List.cons.injEq, and_true] at h
      exact absurd (congrArg TextEmission.text h) (errorTextNe e _ (by decide))
    · exact ⟨aimg, cfg, tr, hai, hac, htr, hloc⟩
    · rw [hrun] at h
      rcases textTail_exhaustive env req fr with
        ⟨_, ht⟩ | ⟨off, e, _, _, ht⟩ | ⟨off, _, _, ht⟩ | ⟨off, img, _, _, ht⟩
      · rw [ht] at h
        exact absurd h (by decide)
      · rw [ht] at h
        simp only [List.cons.injEq, and_true] at h
        exact absurd (congrArg TextEmission.text h) (errorTextNe e _ (by decide))
      · rw [ht] at h
        exact absurd h (by decide)
      · rw [ht] at h
        simp only [List.cons.injEq, and_true] at h
        exact Option.noConfusion (congrArg TextEmission.image h)
  · intro h
    rcases runTextExtraction_exhaustive env req hscr with
      ⟨_, hrun⟩ | ⟨e, hrun⟩ | ⟨aimg, cfg, tr, _, _, _, _, hrun⟩ | ⟨fr, hrun⟩
    · rw [hrun] at h
      exact absurd h (by decide)
    · rw [hrun] at h
      simp only [List.cons.injEq, and_true] at h
      exact absurd (congrArg TextEmission.text h) (errorTextNe e _ (by decide))
    · rw [hrun] at h
      exact absurd h (by decide)
    · rw [hrun] at h
      rcases textTail_exhaustive env req fr with
        ⟨_, ht⟩ | ⟨off, e, _, _, ht⟩ | ⟨off, hoff, hcap, ht⟩ | ⟨off, img, _, _, ht⟩
      · rw [ht] at h
        exact absurd h (by decide)
      · rw [ht] at h
        simp only [List.cons.injEq, and_true] at h
        exact absurd (congrArg TextEmission.text h) (errorTextNe e _ (by decide))
      · exact ⟨fr, off, hoff, hcap⟩
      · rw [ht] at h
        simp only [List.cons.injEq, and_true] at h
        exact Option.noConfusion (congrArg TextEmission.image h)

/-- A text request with anchor image, anchor config and base rect all
configured. -/
def c9AnchorReq : TextRequest :=
  ⟨0, 9/10, true, 1/2, some 1, some ⟨10, 10, 100, 50, some 0, some 0⟩, none, some 1,
   none, "dpr", "en-US", "clean", false, some ⟨5, 5, 20, 20⟩, some ⟨0, 0, 0, 0⟩⟩

/-- Witness for the amended C9: in `textEnv0` (whose searches find nothing)
the fully-configured anchor request fails with `"Anchor not found"`. -/
theorem c9_amended_failure_reasons_witness :
    runTextExtraction textEnv0 c9AnchorReq = [⟨none, "Anchor not found"⟩] :=
  (c9_amended_failure_reasons textEnv0 c9AnchorReq (by decide)).1 1
    ⟨10, 10, 100, 50, some 0, some 0⟩ ⟨5, 5, 20, 20⟩ rfl rfl rfl rfl

/-- C10: the recognized text and the captured image are independent of the
request's `ocr_lang` — two requests identical except for `ocr_lang` produce
identical emission lists under every environment, because
`run_text_extraction` never reads `ocr_lang`: its OCR call passes only the
captured image, `ocr_mode` and `use_det`, leaving `get_text_from_image`'s
`lang` parameter at its `'en-US'` default
(`detection.py:139-143`, `text_recognition.py:103`). -/
theorem c10_ocr_lang_not_forwarded (env : Env) (req : TextRequest) (lang : String) :
    runTextExtraction env { req with ocr_lang := lang } =
      runTextExtraction env req := by
  cases req
  rfl

end PyautoDesktop
